import Mathlib

/-!
Verification of the fuser operation-dispatch and capability-negotiation core.

The development shallowly embeds, from `src/lib.rs` and `src/filesystem.rs`:
  * the `KernelConfig` negotiation record and its setters,
  * the default implementations of the `Filesystem` operation surface
    (reply outcome and log level per operation),
  * the default `batch_forget` decomposition,
  * the `FilesystemAdapter` borrow-and-forward glue.

Machine integers are modelled as `Nat`; wrap-around is made explicit with
`% 2^32` / `% 2^16` at the places where the Rust code could overflow.
The embedding takes the full-feature configuration (all `abi-7-*` features
enabled, Linux target), which is the configuration all claims refer to.

Constants that live outside the two source files (the session buffer size,
libc errno values, FUSE ABI capability bits, reply signatures) are modelled
from the spec and marked as such in their doc comments.
-/

namespace Fuser

/-- Modelled from the spec: the transport buffer capacity `MAX_WRITE_SIZE`
from `session.rs` (a file outside the sources under scrutiny). The spec calls
it "the transport's fixed buffer capacity"; its numeric value is immaterial
to every claim, and it is fixed here at the conventional 16 MiB. -/
def MAX_WRITE_SIZE : Nat := 16 * 1024 * 1024

/-- Modelled from the spec: libc `ENOSYS` ("function not implemented"),
value as on Linux. -/
def ENOSYS : Nat := 38

/-- Modelled from the spec: libc `EPERM` ("operation not permitted"),
value as on Linux. -/
def EPERM : Nat := 1

/-- Modelled from the spec: the FUSE ABI capability bit for asynchronous
reads (`FUSE_ASYNC_READ`), requested unconditionally by the default flags. -/
def FUSE_ASYNC_READ : Nat := 1

/-- Modelled from the spec: the FUSE ABI capability bit for large writes
(`FUSE_BIG_WRITES`), requested by the default flags on ABI 7.10 and above. -/
def FUSE_BIG_WRITES : Nat := 32

/-- Modelled from the spec: the FUSE ABI capability bit for the page-count
negotiation (`FUSE_MAX_PAGES`), requested opportunistically when offered. -/
def FUSE_MAX_PAGES : Nat := 4194304

/-- Embeds `INIT_FLAGS` from `lib.rs` (non-macOS, `abi-7-10` enabled). -/
def INIT_FLAGS : Nat := FUSE_ASYNC_READ ||| FUSE_BIG_WRITES

/-- Embeds `default_init_flags` from `lib.rs` (`abi-7-28` enabled). -/
def default_init_flags (capabilities : Nat) : Nat :=
  if capabilities &&& FUSE_MAX_PAGES ≠ 0 then INIT_FLAGS ||| FUSE_MAX_PAGES
  else INIT_FLAGS

/-- Embeds `std::time::Duration` as used by `set_time_granularity`: seconds
and a sub-second nanosecond part. A Rust `Duration` is always normalized
(`nanos < 10^9`); that fact is carried as a hypothesis where it matters. -/
structure Duration where
  secs : Nat
  nanos : Nat
deriving DecidableEq, Repr

/-- Embeds `Duration::as_nanos` (for normalized durations). -/
def Duration.as_nanos (d : Duration) : Nat := d.secs * 1000000000 + d.nanos

/-- Embeds the `KernelConfig` struct from `lib.rs`, all features enabled.
The Rust field types are `u32` (`capabilities`, `requested`, `max_readahead`,
`max_max_readahead`, `max_write`), `u16` (`max_background`,
`congestion_threshold`), and `Duration` (`time_gran`). -/
structure KernelConfig where
  capabilities : Nat
  requested : Nat
  max_readahead : Nat
  max_max_readahead : Nat
  max_background : Nat
  congestion_threshold : Option Nat
  max_write : Nat
  time_gran : Duration
deriving DecidableEq, Repr

/-- Embeds `KernelConfig::new`. -/
def KernelConfig.new (capabilities max_readahead : Nat) : KernelConfig where
  capabilities := capabilities
  requested := default_init_flags capabilities
  max_readahead := max_readahead
  max_max_readahead := max_readahead
  max_background := 16
  congestion_threshold := none
  max_write := MAX_WRITE_SIZE
  time_gran := ⟨0, 1⟩

/-- Embeds the `while` loop of `set_time_granularity`: `power_of_10` is
represented by its exponent `k` (the Rust variable holds `10 ^ k`, starting
at `1 = 10 ^ 0`), which also serves as the termination measure. Returns
`some (10 ^ k)` when the loop returns `Err(Duration::new(0, power_of_10))`,
and `none` when the loop falls through to the success path. -/
def gran_loop (n : Nat) (k : Nat) : Option Nat :=
  if 10 ^ k < n then
    if n < 10 ^ k * 10 then some (10 ^ k)
    else gran_loop n (k + 1)
  else none
termination_by n - 10 ^ k
decreasing_by
  simp_wf
  have h1 : 0 < 10 ^ k := Nat.pos_pow_of_pos k (by omega)
  omega

/-- Embeds `KernelConfig::set_time_granularity`. Mutation of `self` is made
explicit: the result pairs the updated record with the `Result`. -/
def KernelConfig.set_time_granularity (c : KernelConfig) (value : Duration) :
    KernelConfig × Except Duration Duration :=
  if value.as_nanos = 0 then (c, .error ⟨0, 1⟩)
  else if 1 < value.secs ∨ (value.secs = 1 ∧ 0 < value.nanos) then
    (c, .error ⟨1, 0⟩)
  else
    match gran_loop value.as_nanos 0 with
    | some p => (c, .error ⟨0, p⟩)
    | none => ({ c with time_gran := value }, .ok c.time_gran)

/-- Embeds `KernelConfig::set_max_write`. -/
def KernelConfig.set_max_write (c : KernelConfig) (value : Nat) :
    KernelConfig × Except Nat Nat :=
  if value = 0 then (c, .error 1)
  else if value > MAX_WRITE_SIZE then (c, .error MAX_WRITE_SIZE)
  else ({ c with max_write := value }, .ok c.max_write)

/-- Embeds `KernelConfig::set_max_readahead`. -/
def KernelConfig.set_max_readahead (c : KernelConfig) (value : Nat) :
    KernelConfig × Except Nat Nat :=
  if value = 0 then (c, .error 1)
  else if value > c.max_max_readahead then (c, .error c.max_max_readahead)
  else ({ c with max_readahead := value }, .ok c.max_readahead)

/-- Embeds `KernelConfig::add_capabilities`. -/
def KernelConfig.add_capabilities (c : KernelConfig) (capabilities_to_add : Nat) :
    KernelConfig × Except Nat Unit :=
  if capabilities_to_add &&& c.capabilities ≠ capabilities_to_add then
    (c, .error (capabilities_to_add - (capabilities_to_add &&& c.capabilities)))
  else
    ({ c with requested := c.requested ||| capabilities_to_add }, .ok ())

/-- Embeds `KernelConfig::set_max_background`. -/
def KernelConfig.set_max_background (c : KernelConfig) (value : Nat) :
    KernelConfig × Except Nat Nat :=
  if value = 0 then (c, .error 1)
  else ({ c with max_background := value }, .ok c.max_background)

/-- Embeds the private getter `KernelConfig::congestion_threshold`. Lean
reserves the plain name for the structure projection, hence the camel-case
name for the method. -/
def KernelConfig.congestionThreshold (c : KernelConfig) : Nat :=
  match c.congestion_threshold with
  | none => c.max_background * 3 / 4
  | some value => min value c.max_background

/-- Embeds `KernelConfig::set_congestion_threshold`; note that the Rust code
reads the previous value through the getter, not the raw field. -/
def KernelConfig.set_congestion_threshold (c : KernelConfig) (value : Nat) :
    KernelConfig × Except Nat Nat :=
  if value = 0 then (c, .error 1)
  else ({ c with congestion_threshold := some value }, .ok c.congestionThreshold)

/-- Embeds `KernelConfig::max_pages`, parametric in the system page size
(`page_size::get()`, an external crate call). The `u32` subtraction and the
`as u16` casts of the Rust expression
`((max(max_write, max_readahead) - 1) / page_size) as u16 + 1`
are modelled by explicit wrap-arounds. -/
def KernelConfig.max_pages (c : KernelConfig) (page_size : Nat) : Nat :=
  (((max c.max_write c.max_readahead + 2 ^ 32 - 1) % 2 ^ 32 / page_size) % 2 ^ 16
    + 1) % 2 ^ 16

/-! Helper lemmas about `gran_loop`. -/

theorem gran_loop_stop (n k : Nat) (h : n ≤ 10 ^ k) : gran_loop n k = none := by
  rw [gran_loop.eq_def]
  simp only [if_neg (by omega : ¬ 10 ^ k < n)]

theorem gran_loop_pow (k : Nat) :
    ∀ d j, j + d = k → gran_loop (10 ^ k) j = none := by
  intro d
  induction d with
  | zero =>
    intro j hj
    have hj' : j = k := by omega
    subst hj'
    exact gran_loop_stop _ _ (le_refl _)
  | succ d ih =>
    intro j hj
    have hjk : j < k := by omega
    have h1 : 10 ^ j < 10 ^ k := Nat.pow_lt_pow_right (by omega) hjk
    have h2 : 10 ^ j * 10 ≤ 10 ^ k := by
      rw [← pow_succ]
      exact Nat.pow_le_pow_right (by omega) (by omega)
    rw [gran_loop.eq_def]
    rw [if_pos h1, if_neg (by omega)]
    exact ih (j + 1) (by omega)

theorem gran_loop_between (t n : Nat) (h1 : 10 ^ t < n) (h2 : n < 10 ^ (t + 1)) :
    ∀ d j, j + d = t → gran_loop n j = some (10 ^ t) := by
  intro d
  induction d with
  | zero =>
    intro j hj
    have hj' : j = t := by omega
    subst hj'
    rw [gran_loop.eq_def, if_pos h1, if_pos (by rw [← pow_succ]; exact h2)]
  | succ d ih =>
    intro j hj
    have hjt : j < t := by omega
    have ha : 10 ^ j < 10 ^ t := Nat.pow_lt_pow_right (by omega) hjt
    have hb : 10 ^ j * 10 ≤ 10 ^ t := by
      rw [← pow_succ]
      exact Nat.pow_le_pow_right (by omega) (by omega)
    rw [gran_loop.eq_def, if_pos (by omega), if_neg (by omega)]
    exact ih (j + 1) (by omega)

theorem gran_loop_some_pow (m : Nat) :
    ∀ n j p, n - 10 ^ j ≤ m → gran_loop n j = some p →
      ∃ t, j ≤ t ∧ p = 10 ^ t ∧ 10 ^ t < n ∧ n < 10 ^ (t + 1) := by
  induction m with
  | zero =>
    intro n j p hm h
    rw [gran_loop.eq_def] at h
    rw [if_neg (by omega)] at h
    exact absurd h (by simp)
  | succ m ih =>
    intro n j p hm h
    rw [gran_loop.eq_def] at h
    by_cases h1 : 10 ^ j < n
    · rw [if_pos h1] at h
      by_cases h2 : n < 10 ^ j * 10
      · rw [if_pos h2] at h
        refine ⟨j, le_refl j, (Option.some.inj h).symm, h1, ?_⟩
        rw [pow_succ]
        exact h2
      · rw [if_neg h2] at h
        have hd : 0 < 10 ^ j := Nat.pos_pow_of_pos j (by omega)
        have hstep : 10 ^ j < 10 ^ (j + 1) := Nat.pow_lt_pow_right (by omega) (by omega)
        obtain ⟨t, ht1, ht2, ht3, ht4⟩ := ih n (j + 1) p (by omega) h
        exact ⟨t, by omega, ht2, ht3, ht4⟩
    · rw [if_neg h1] at h
      exact absurd h (by simp)

theorem gran_loop_none_pow (n : Nat) (h1 : 1 ≤ n) (h9 : n ≤ 10 ^ 9)
    (h : gran_loop n 0 = none) : ∃ k, k ≤ 9 ∧ n = 10 ^ k := by
  have hlog1 : 10 ^ Nat.log 10 n ≤ n := Nat.pow_log_le_self 10 (by omega)
  have hlog2 : n < 10 ^ (Nat.log 10 n + 1) :=
    Nat.lt_pow_succ_log_self (by omega) n
  rcases Nat.eq_or_lt_of_le hlog1 with heq | hlt
  · refine ⟨Nat.log 10 n, ?_, heq.symm⟩
    have : 10 ^ Nat.log 10 n ≤ 10 ^ 9 := by omega
    exact (Nat.pow_le_pow_iff_right (by omega)).mp this
  · have := gran_loop_between (Nat.log 10 n) n hlt hlog2 (Nat.log 10 n) 0 (by omega)
    rw [h] at this
    exact absurd this (by simp)

/-! Helper lemmas about `set_time_granularity`. -/

theorem stg_pow_ok (c : KernelConfig) (d : Duration) (hd : d.nanos < 1000000000)
    (h : ∃ k, k ≤ 9 ∧ d.as_nanos = 10 ^ k) :
    c.set_time_granularity d = ({ c with time_gran := d }, .ok c.time_gran) := by
  obtain ⟨k, hk, hn⟩ := h
  have hpos : 0 < 10 ^ k := Nat.pos_pow_of_pos k (by omega)
  have hle : 10 ^ k ≤ 10 ^ 9 := Nat.pow_le_pow_right (by omega) hk
  have hnanos : d.as_nanos = d.secs * 1000000000 + d.nanos := rfl
  rw [KernelConfig.set_time_granularity]
  rw [if_neg (by omega)]
  rw [if_neg (by omega)]
  rw [hn, gran_loop_pow k k 0 (by omega)]

theorem stg_error_state (c : KernelConfig) (d : Duration) (c' : KernelConfig)
    (e : Duration) (h : c.set_time_granularity d = (c', .error e)) : c' = c := by
  rw [KernelConfig.set_time_granularity] at h
  by_cases h1 : d.as_nanos = 0
  · rw [if_pos h1] at h
    simp only [Prod.mk.injEq] at h
    exact h.1.symm
  · rw [if_neg h1] at h
    by_cases h2 : 1 < d.secs ∨ (d.secs = 1 ∧ 0 < d.nanos)
    · rw [if_pos h2] at h
      simp only [Prod.mk.injEq] at h
      exact h.1.symm
    · rw [if_neg h2] at h
      cases hg : gran_loop d.as_nanos 0 with
      | some p =>
        rw [hg] at h
        simp only [Prod.mk.injEq] at h
        exact h.1.symm
      | none =>
        rw [hg] at h
        simp only [Prod.mk.injEq] at h
        exact absurd h.2 (by simp)

theorem stg_error_value (c : KernelConfig) (d : Duration) (c' : KernelConfig)
    (e : Duration) (hd : d.nanos < 1000000000)
    (h : c.set_time_granularity d = (c', .error e)) :
    e = ⟨0, 1⟩ ∨ e = ⟨1, 0⟩ ∨ ∃ t, t ≤ 8 ∧ e = ⟨0, 10 ^ t⟩ := by
  rw [KernelConfig.set_time_granularity] at h
  have hnanos : d.as_nanos = d.secs * 1000000000 + d.nanos := rfl
  by_cases h1 : d.as_nanos = 0
  · rw [if_pos h1] at h
    simp only [Prod.mk.injEq, Except.error.injEq] at h
    exact Or.inl h.2.symm
  · rw [if_neg h1] at h
    by_cases h2 : 1 < d.secs ∨ (d.secs = 1 ∧ 0 < d.nanos)
    · rw [if_pos h2] at h
      simp only [Prod.mk.injEq, Except.error.injEq] at h
      exact Or.inr (Or.inl h.2.symm)
    · rw [if_neg h2] at h
      cases hg : gran_loop d.as_nanos 0 with
      | some p =>
        rw [hg] at h
        simp only [Prod.mk.injEq, Except.error.injEq] at h
        obtain ⟨t, _, htp, htlt, _⟩ :=
          gran_loop_some_pow d.as_nanos d.as_nanos 0 p (by omega) hg
        have hle : d.as_nanos ≤ 10 ^ 9 := by
          push_neg at h2
          rcases Nat.lt_or_ge d.secs 1 with hs | hs
          · have : d.secs = 0 := by omega
            omega
          · have : d.secs = 1 := by omega
            have : d.nanos = 0 := by omega
            omega
        have ht9 : t < 9 := by
          have : 10 ^ t < 10 ^ 9 := by omega
          exact (Nat.pow_lt_pow_iff_right (by omega)).mp this
        exact Or.inr (Or.inr ⟨t, by omega, by rw [← h.2, htp]⟩)
      | none =>
        rw [hg] at h
        simp only [Prod.mk.injEq] at h
        exact absurd h.2 (by simp)

theorem stg_ok_pow (c : KernelConfig) (d : Duration) (c' : KernelConfig)
    (prev : Duration) (hd : d.nanos < 1000000000)
    (h : c.set_time_granularity d = (c', .ok prev)) :
    ∃ k, k ≤ 9 ∧ d.as_nanos = 10 ^ k := by
  rw [KernelConfig.set_time_granularity] at h
  have hnanos : d.as_nanos = d.secs * 1000000000 + d.nanos := rfl
  by_cases h1 : d.as_nanos = 0
  · rw [if_pos h1] at h
    simp only [Prod.mk.injEq] at h
    exact absurd h.2 (by simp)
  · rw [if_neg h1] at h
    by_cases h2 : 1 < d.secs ∨ (d.secs = 1 ∧ 0 < d.nanos)
    · rw [if_pos h2] at h
      simp only [Prod.mk.injEq] at h
      exact absurd h.2 (by simp)
    · rw [if_neg h2] at h
      have hle : d.as_nanos ≤ 10 ^ 9 := by
        push_neg at h2
        rcases Nat.lt_or_ge d.secs 1 with hs | hs
        · have : d.secs = 0 := by omega
          omega
        · have : d.secs = 1 := by omega
          have : d.nanos = 0 := by omega
          omega
      cases hg : gran_loop d.as_nanos 0 with
      | some p =>
        rw [hg] at h
        simp only [Prod.mk.injEq] at h
        exact absurd h.2 (by simp)
      | none =>
        exact gran_loop_none_pow d.as_nanos (by omega) hle hg

/-! Bitwise helper lemmas for `add_capabilities`. -/

theorem zero_ldiff (n : Nat) : Nat.ldiff 0 n = 0 :=
  Nat.eq_of_testBit_eq fun i => by simp [Nat.testBit_ldiff]

theorem land_add_ldiff (m n : Nat) : (m &&& n) + Nat.ldiff m n = m := by
  induction m using Nat.binaryRec generalizing n with
  | z => simp [zero_ldiff]
  | f a m ih =>
    cases n using Nat.bitCasesOn with
    | h b n =>
      rw [Nat.land_bit, Nat.ldiff_bit, Nat.bit_val, Nat.bit_val, Nat.bit_val]
      have := ih n
      cases a <;> cases b <;> simp <;> omega

theorem sub_land_eq_ldiff (m n : Nat) : m - (m &&& n) = Nat.ldiff m n := by
  have h := land_add_ldiff m n
  omega

/-- C2: when `bits` is a subset of the offered capability bitmask,
`add_capabilities bits` succeeds and the requested capabilities afterwards
include every bit of `bits`; when `bits` has a bit outside the offered
bitmask, the call fails, returns exactly the unmet subset (bit `i` of the
returned value is set precisely when bit `i` is set in `bits` and clear in
the offered bitmask), and leaves the configuration unmodified. -/
theorem add_capabilities_correct (c : KernelConfig) (bits : Nat) :
    (bits &&& c.capabilities = bits →
      c.add_capabilities bits =
        ({ c with requested := c.requested ||| bits }, .ok ()) ∧
      ∀ i, bits.testBit i = true →
        (c.requested ||| bits).testBit i = true) ∧
    (bits &&& c.capabilities ≠ bits →
      (c.add_capabilities bits).1 = c ∧
      ∃ e, (c.add_capabilities bits).2 = .error e ∧
        ∀ i, e.testBit i = (bits.testBit i && !(c.capabilities.testBit i))) := by
  constructor
  · intro h
    constructor
    · rw [KernelConfig.add_capabilities, if_neg (by simp [h])]
    · intro i hi
      simp [Nat.testBit_lor, hi]
  · intro h
    rw [KernelConfig.add_capabilities, if_pos h]
    refine ⟨rfl, bits - (bits &&& c.capabilities), rfl, ?_⟩
    intro i
    rw [sub_land_eq_ldiff, Nat.testBit_ldiff]

/-- Witness for C2 at a concrete configuration: offered bitmask `7`,
requesting `5` (a subset, so the first branch applies) — and the same
theorem instantiated at `9` (bit 3 unmet). -/
theorem add_capabilities_correct_witness :
    ((5 &&& (KernelConfig.new 7 4096).capabilities = 5 →
      (KernelConfig.new 7 4096).add_capabilities 5 =
        ({ KernelConfig.new 7 4096 with
            requested := (KernelConfig.new 7 4096).requested ||| 5 }, .ok ()) ∧
      ∀ i, Nat.testBit 5 i = true →
        ((KernelConfig.new 7 4096).requested ||| 5).testBit i = true) ∧
    (5 &&& (KernelConfig.new 7 4096).capabilities ≠ 5 →
      ((KernelConfig.new 7 4096).add_capabilities 5).1 = KernelConfig.new 7 4096 ∧
      ∃ e, ((KernelConfig.new 7 4096).add_capabilities 5).2 = .error e ∧
        ∀ i, e.testBit i =
          (Nat.testBit 5 i && !((KernelConfig.new 7 4096).capabilities.testBit i)))) :=
  add_capabilities_correct (KernelConfig.new 7 4096) 5

/-- C3: `set_time_granularity` succeeds, storing the value and returning the
previous granularity, exactly when the argument is a power of ten
nanoseconds between 1 ns and 1 s; a zero duration fails with 1 ns, a
duration above 1 s fails with 1 s, a duration strictly between two powers
of ten fails with the next-lower power of ten, and every failure leaves the
configuration unchanged. -/
theorem set_time_granularity_correct (c : KernelConfig) (d : Duration)
    (hd : d.nanos < 1000000000) :
    ((∃ k, k ≤ 9 ∧ d.as_nanos = 10 ^ k) ↔
      c.set_time_granularity d = ({ c with time_gran := d }, .ok c.time_gran)) ∧
    (d.as_nanos = 0 → c.set_time_granularity d = (c, .error ⟨0, 1⟩)) ∧
    (1000000000 < d.as_nanos → c.set_time_granularity d = (c, .error ⟨1, 0⟩)) ∧
    (∀ k, k ≤ 8 → 10 ^ k < d.as_nanos → d.as_nanos < 10 ^ (k + 1) →
      c.set_time_granularity d = (c, .error ⟨0, 10 ^ k⟩)) ∧
    (∀ c' e, c.set_time_granularity d = (c', .error e) → c' = c) := by
  have hnanos : d.as_nanos = d.secs * 1000000000 + d.nanos := rfl
  refine ⟨⟨fun h => stg_pow_ok c d hd h, fun h => stg_ok_pow c d _ _ hd h⟩,
    ?_, ?_, ?_, fun c' e h => stg_error_state c d c' e h⟩
  · intro h
    rw [KernelConfig.set_time_granularity, if_pos h]
  · intro h
    rw [KernelConfig.set_time_granularity, if_neg (by omega),
      if_pos (by omega)]
  · intro k hk hlo hhi
    have hcap : 10 ^ (k + 1) ≤ 10 ^ 9 := Nat.pow_le_pow_right (by omega) (by omega)
    rw [KernelConfig.set_time_granularity, if_neg (by omega),
      if_neg (by omega)]
    rw [gran_loop_between k d.as_nanos hlo hhi k 0 (by omega)]

/-- Witness for C3 at the concrete input 150 ns (normalized, strictly
between 100 ns and 1000 ns and not a power of ten). -/
theorem set_time_granularity_correct_witness :
    (150 : Nat) < 1000000000 ∧
    (((∃ k, k ≤ 9 ∧ (Duration.mk 0 150).as_nanos = 10 ^ k) ↔
      (KernelConfig.new 0 0).set_time_granularity ⟨0, 150⟩ =
        ({ KernelConfig.new 0 0 with time_gran := ⟨0, 150⟩ },
          .ok (KernelConfig.new 0 0).time_gran)) ∧
    ((Duration.mk 0 150).as_nanos = 0 →
      (KernelConfig.new 0 0).set_time_granularity ⟨0, 150⟩ =
        (KernelConfig.new 0 0, .error ⟨0, 1⟩)) ∧
    (1000000000 < (Duration.mk 0 150).as_nanos →
      (KernelConfig.new 0 0).set_time_granularity ⟨0, 150⟩ =
        (KernelConfig.new 0 0, .error ⟨1, 0⟩)) ∧
    (∀ k, k ≤ 8 → 10 ^ k < (Duration.mk 0 150).as_nanos →
        (Duration.mk 0 150).as_nanos < 10 ^ (k + 1) →
      (KernelConfig.new 0 0).set_time_granularity ⟨0, 150⟩ =
        (KernelConfig.new 0 0, .error ⟨0, 10 ^ k⟩)) ∧
    (∀ c' e,
      (KernelConfig.new 0 0).set_time_granularity ⟨0, 150⟩ = (c', .error e) →
      c' = KernelConfig.new 0 0)) :=
  ⟨by omega, set_time_granularity_correct (KernelConfig.new 0 0) ⟨0, 150⟩ (by decide)⟩

/-- C4: `set_max_write` and `set_max_readahead` reject zero with error value
1, reject values above their respective bound (the transport buffer capacity
for writes, the construction-time bound for readahead) with exactly that
bound, and for nonzero in-bound values succeed, return the previous field
value, and store the new one; failures leave the record unchanged. -/
theorem set_max_write_readahead_correct (c : KernelConfig) (v : Nat) :
    c.set_max_write 0 = (c, .error 1) ∧
    c.set_max_readahead 0 = (c, .error 1) ∧
    (MAX_WRITE_SIZE < v → c.set_max_write v = (c, .error MAX_WRITE_SIZE)) ∧
    (c.max_max_readahead < v →
      c.set_max_readahead v = (c, .error c.max_max_readahead)) ∧
    (0 < v → v ≤ MAX_WRITE_SIZE →
      c.set_max_write v = ({ c with max_write := v }, .ok c.max_write)) ∧
    (0 < v → v ≤ c.max_max_readahead →
      c.set_max_readahead v = ({ c with max_readahead := v }, .ok c.max_readahead)) := by
  refine ⟨?_, ?_, ?_, ?_, ?_, ?_⟩
  · rw [KernelConfig.set_max_write, if_pos rfl]
  · rw [KernelConfig.set_max_readahead, if_pos rfl]
  · intro h
    rw [KernelConfig.set_max_write, if_neg (by omega), if_pos (by omega)]
  · intro h
    rw [KernelConfig.set_max_readahead, if_neg (by omega), if_pos (by omega)]
  · intro h1 h2
    rw [KernelConfig.set_max_write, if_neg (by omega), if_neg (by omega)]
  · intro h1 h2
    rw [KernelConfig.set_max_readahead, if_neg (by omega), if_neg (by omega)]

/-- Witness for C4 at a concrete configuration and value. -/
theorem set_max_write_readahead_correct_witness :
    (KernelConfig.new 0 8192).set_max_write 0 = (KernelConfig.new 0 8192, .error 1) ∧
    (KernelConfig.new 0 8192).set_max_readahead 0 = (KernelConfig.new 0 8192, .error 1) ∧
    (MAX_WRITE_SIZE < 4096 →
      (KernelConfig.new 0 8192).set_max_write 4096 =
        (KernelConfig.new 0 8192, .error MAX_WRITE_SIZE)) ∧
    ((KernelConfig.new 0 8192).max_max_readahead < 4096 →
      (KernelConfig.new 0 8192).set_max_readahead 4096 =
        (KernelConfig.new 0 8192, .error (KernelConfig.new 0 8192).max_max_readahead)) ∧
    (0 < 4096 → 4096 ≤ MAX_WRITE_SIZE →
      (KernelConfig.new 0 8192).set_max_write 4096 =
        ({ KernelConfig.new 0 8192 with max_write := 4096 },
          .ok (KernelConfig.new 0 8192).max_write)) ∧
    (0 < 4096 → 4096 ≤ (KernelConfig.new 0 8192).max_max_readahead →
      (KernelConfig.new 0 8192).set_max_readahead 4096 =
        ({ KernelConfig.new 0 8192 with max_readahead := 4096 },
          .ok (KernelConfig.new 0 8192).max_readahead)) :=
  set_max_write_readahead_correct (KernelConfig.new 0 8192) 4096

/-- C5: with no explicitly set congestion threshold the effective threshold
reads as three quarters of `max_background` (12 for the default 16); an
explicitly set threshold reads clamped to `max_background` (20 against 16
reads 16); zero is rejected by both `set_congestion_threshold` and
`set_max_background`. -/
theorem congestion_threshold_correct (c : KernelConfig) (v : Nat) :
    (c.congestion_threshold = none →
      c.congestionThreshold = c.max_background * 3 / 4) ∧
    (c.congestion_threshold = none → c.max_background = 16 →
      c.congestionThreshold = 12) ∧
    (0 < v → ∀ c' prev, c.set_congestion_threshold v = (c', .ok prev) →
      c'.congestionThreshold = min v c'.max_background) ∧
    (c.max_background = 16 →
      ((c.set_congestion_threshold 20).1).congestionThreshold = 16) ∧
    c.set_congestion_threshold 0 = (c, .error 1) ∧
    c.set_max_background 0 = (c, .error 1) := by
  refine ⟨?_, ?_, ?_, ?_, ?_, ?_⟩
  · intro h
    rw [KernelConfig.congestionThreshold, h]
  · intro h h16
    rw [KernelConfig.congestionThreshold, h, h16]
  · intro hv c' prev h
    rw [KernelConfig.set_congestion_threshold, if_neg (by omega)] at h
    simp only [Prod.mk.injEq] at h
    rw [← h.1, KernelConfig.congestionThreshold]
  · intro h16
    rw [KernelConfig.set_congestion_threshold, if_neg (by omega)]
    simp only [KernelConfig.congestionThreshold, h16]
    omega
  · rw [KernelConfig.set_congestion_threshold, if_pos rfl]
  · rw [KernelConfig.set_max_background, if_pos rfl]

/-- Witness for C5 at the freshly constructed configuration
(`max_background = 16`, threshold unset) and the value 20. -/
theorem congestion_threshold_correct_witness :
    ((KernelConfig.new 0 0).congestion_threshold = none →
      (KernelConfig.new 0 0).congestionThreshold =
        (KernelConfig.new 0 0).max_background * 3 / 4) ∧
    ((KernelConfig.new 0 0).congestion_threshold = none →
      (KernelConfig.new 0 0).max_background = 16 →
      (KernelConfig.new 0 0).congestionThreshold = 12) ∧
    (0 < 20 → ∀ c' prev,
      (KernelConfig.new 0 0).set_congestion_threshold 20 = (c', .ok prev) →
      c'.congestionThreshold = min 20 c'.max_background) ∧
    ((KernelConfig.new 0 0).max_background = 16 →
      (((KernelConfig.new 0 0).set_congestion_threshold 20).1).congestionThreshold = 16) ∧
    (KernelConfig.new 0 0).set_congestion_threshold 0 = (KernelConfig.new 0 0, .error 1) ∧
    (KernelConfig.new 0 0).set_max_background 0 = (KernelConfig.new 0 0, .error 1) :=
  congestion_threshold_correct (KernelConfig.new 0 0) 20

/-- C6: whenever `set_time_granularity` fails, calling it again with exactly
the duration returned by the failed call succeeds (every error value the
function can produce is itself a legal power-of-ten granularity). -/
theorem set_time_granularity_retry (c c' : KernelConfig) (d e : Duration)
    (hd : d.nanos < 1000000000)
    (h : c.set_time_granularity d = (c', .error e)) :
    c'.set_time_granularity e = ({ c' with time_gran := e }, .ok c'.time_gran) := by
  obtain he | he | ⟨t, ht, he⟩ := stg_error_value c d c' e hd h
  · subst he
    exact stg_pow_ok c' ⟨0, 1⟩ (by decide) ⟨0, by omega, rfl⟩
  · subst he
    exact stg_pow_ok c' ⟨1, 0⟩ (by decide) ⟨9, by omega, rfl⟩
  · subst he
    have hle : 10 ^ t ≤ 10 ^ 8 := Nat.pow_le_pow_right (by omega) ht
    have h8 : (10 : Nat) ^ 8 = 100000000 := by norm_num
    refine stg_pow_ok c' ⟨0, 10 ^ t⟩ ?_ ⟨t, by omega, ?_⟩
    · show 10 ^ t < 1000000000
      omega
    · show 0 * 1000000000 + 10 ^ t = 10 ^ t
      omega

/-- Witness for C6: the failed call at 150 ns returns 100 ns, and the retry
at 100 ns succeeds. -/
theorem set_time_granularity_retry_witness :
    (150 : Nat) < 1000000000 ∧
    (KernelConfig.new 0 0).set_time_granularity ⟨0, 150⟩ =
      (KernelConfig.new 0 0, .error ⟨0, 100⟩) ∧
    (KernelConfig.new 0 0).set_time_granularity ⟨0, 100⟩ =
      ({ KernelConfig.new 0 0 with time_gran := ⟨0, 100⟩ },
        .ok (KernelConfig.new 0 0).time_gran) := by
  have hloop : gran_loop 150 0 = some 100 := by
    have h2 := gran_loop_between 2 150 (by norm_num) (by norm_num) 2 0 (by omega)
    norm_num at h2
    exact h2
  have h : (KernelConfig.new 0 0).set_time_granularity ⟨0, 150⟩ =
      (KernelConfig.new 0 0, .error ⟨0, 100⟩) := by
    rw [KernelConfig.set_time_granularity, if_neg (by decide), if_neg (by decide)]
    rw [show (Duration.mk 0 150).as_nanos = 150 from rfl, hloop]
  exact ⟨by omega, h,
    set_time_granularity_retry (KernelConfig.new 0 0) (KernelConfig.new 0 0)
      ⟨0, 150⟩ ⟨0, 100⟩ (by decide) h⟩

/-- C8 (amended): for a configuration with nonzero `max_write` and `u32`
fields in range, `max_pages` equals the exact ceiling of
`max(max_write, max_readahead) / page_size` whenever that ceiling fits in a
`u16`; in particular the `(x - 1) / page_size + 1` formulation does not
underflow. (The unamended claim fails: the `as u16` cast truncates the
quotient for reachable states with a large enough `max_readahead`.) -/
theorem max_pages_correct (c : KernelConfig) (page_size : Nat)
    (hps : 0 < page_size) (hw : 0 < c.max_write)
    (hm : max c.max_write c.max_readahead < 2 ^ 32)
    (hfit : (max c.max_write c.max_readahead + page_size - 1) / page_size < 2 ^ 16) :
    c.max_pages page_size =
      (max c.max_write c.max_readahead + page_size - 1) / page_size := by
  have h1 : 1 ≤ max c.max_write c.max_readahead :=
    le_trans hw (le_max_left _ _)
  have hA : (max c.max_write c.max_readahead + 2 ^ 32 - 1) % 2 ^ 32 =
      max c.max_write c.max_readahead - 1 := by omega
  have hceil : (max c.max_write c.max_readahead + page_size - 1) / page_size =
      (max c.max_write c.max_readahead - 1) / page_size + 1 := by
    have hstep := Nat.add_div_right (max c.max_write c.max_readahead - 1) hps
    have harg : max c.max_write c.max_readahead + page_size - 1 =
        max c.max_write c.max_readahead - 1 + page_size := by omega
    rw [harg, hstep]
  rw [KernelConfig.max_pages, hA, hceil]
  have hq : (max c.max_write c.max_readahead - 1) / page_size + 1 < 2 ^ 16 := by
    rw [← hceil]
    exact hfit
  have hqlt : (max c.max_write c.max_readahead - 1) / page_size < 2 ^ 16 := by
    omega
  rw [Nat.mod_eq_of_lt hqlt, Nat.mod_eq_of_lt hq]

/-- Witness for C8 at a concrete in-range configuration. -/
theorem max_pages_correct_witness :
    0 < (4096 : Nat) ∧ 0 < (KernelConfig.new 0 8192).max_write ∧
    max (KernelConfig.new 0 8192).max_write (KernelConfig.new 0 8192).max_readahead
      < 2 ^ 32 ∧
    (max (KernelConfig.new 0 8192).max_write (KernelConfig.new 0 8192).max_readahead
      + 4096 - 1) / 4096 < 2 ^ 16 ∧
    (KernelConfig.new 0 8192).max_pages 4096 =
      (max (KernelConfig.new 0 8192).max_write (KernelConfig.new 0 8192).max_readahead
        + 4096 - 1) / 4096 :=
  ⟨by decide, by decide, by decide, by decide,
    max_pages_correct (KernelConfig.new 0 8192) 4096 (by decide) (by decide)
      (by decide) (by decide)⟩

/-- C8 counterexample: the configuration constructed with
`max_readahead = 2^28 + 4096` is reachable (it is the output of `new`), has
nonzero `max_write`, and with the common page size 4096 the code computes 1
page while the exact ceiling is 65537 — the `as u16` cast truncates. -/
theorem max_pages_counterexample :
    0 < (KernelConfig.new 0 268439552).max_write ∧
    (KernelConfig.new 0 268439552).max_pages 4096 = 1 ∧
    (max (KernelConfig.new 0 268439552).max_write
        (KernelConfig.new 0 268439552).max_readahead + 4096 - 1) / 4096 = 65537 ∧
    (1 : Nat) ≠ 65537 := by
  refine ⟨by decide, ?_, by decide, by decide⟩
  decide

/-! Embedding of the default `batch_forget` (C7). -/

/-- Embeds `fuse_forget_one` from the FUSE ABI (`abi-7-16`): a node id and
the lookup count to release. -/
structure fuse_forget_one where
  nodeid : Nat
  nlookup : Nat

/-- Embeds the default `batch_forget` body,
`for node in nodes { self.forget(req, node.nodeid, node.nlookup) }`:
the implementation state `σ` is threaded explicitly and the singular
`forget` of the implementation is passed as a function; `ρ` is the opaque
request type. -/
def batch_forget {ρ σ : Type} (forget : σ → ρ → Nat → Nat → σ)
    (fs : σ) (req : ρ) (nodes : List fuse_forget_one) : σ :=
  nodes.foldl (fun fs node => forget fs req node.nodeid node.nlookup) fs

/-- Written from the spec side of C7: one singular `forget` call per record,
in list order, with that record's node id and lookup count. -/
def forget_each {ρ σ : Type} (forget : σ → ρ → Nat → Nat → σ)
    (fs : σ) (req : ρ) : List fuse_forget_one → σ
  | [] => fs
  | node :: rest => forget_each forget (forget fs req node.nodeid node.nlookup) req rest

/-- C7: the default `batch_forget` is observably the sequence of singular
`forget` calls, one per record, in list order, with each record's node id
and lookup count, for every implementation state, request and record list. -/
theorem batch_forget_eq_forget_each {ρ σ : Type}
    (forget : σ → ρ → Nat → Nat → σ) (fs : σ) (req : ρ)
    (nodes : List fuse_forget_one) :
    batch_forget forget fs req nodes = forget_each forget fs req nodes := by
  induction nodes generalizing fs with
  | nil => rfl
  | cons node rest ih =>
    rw [batch_forget, List.foldl_cons, forget_each]
    exact ih _

/-! Embedding of the `KernelConfig` mutation surface as actions (C10). -/

/-- One constructor per setter of `impl KernelConfig` that the `init` hook
may call. -/
inductive ConfigAction where
  | setTimeGran (d : Duration)
  | setMaxWrite (v : Nat)
  | setMaxReadahead (v : Nat)
  | addCaps (bits : Nat)
  | setMaxBackground (v : Nat)
  | setCongestion (v : Nat)

/-- Applies a setter, keeping the (possibly unchanged) record and dropping
the `Result`. -/
def applyAction (c : KernelConfig) : ConfigAction → KernelConfig
  | .setTimeGran d => (c.set_time_granularity d).1
  | .setMaxWrite v => (c.set_max_write v).1
  | .setMaxReadahead v => (c.set_max_readahead v).1
  | .addCaps bits => (c.add_capabilities bits).1
  | .setMaxBackground v => (c.set_max_background v).1
  | .setCongestion v => (c.set_congestion_threshold v).1

/-- Well-formedness of an action argument: a Rust `Duration` argument is
always normalized (`subsec_nanos < 10^9`). -/
def ConfigAction.wf : ConfigAction → Prop
  | .setTimeGran d => d.nanos < 1000000000
  | _ => True

/-- The C10 invariant: readahead bounded by the construction-time bound,
`max_write` nonzero and bounded by the transport buffer capacity, and the
timestamp granularity an exact power of ten nanoseconds in `[1ns, 1s]`
(stored normalized). -/
def ConfigInv (c : KernelConfig) : Prop :=
  c.max_readahead ≤ c.max_max_readahead ∧
  0 < c.max_write ∧ c.max_write ≤ MAX_WRITE_SIZE ∧
  (∃ k, k ≤ 9 ∧ c.time_gran.as_nanos = 10 ^ k) ∧
  c.time_gran.nanos < 1000000000

theorem applyAction_preserves (c : KernelConfig) (a : ConfigAction)
    (hwf : a.wf) (h : ConfigInv c) :
    ConfigInv (applyAction c a) ∧
    (applyAction c a).capabilities = c.capabilities ∧
    (applyAction c a).max_max_readahead = c.max_max_readahead := by
  obtain ⟨h1, h2, h3, h4, h5⟩ := h
  cases a with
  | setTimeGran d =>
    rcases hres : c.set_time_granularity d with ⟨c', r⟩
    cases r with
    | error e =>
      have hc : c' = c := stg_error_state c d c' e hres
      simp only [applyAction, hres, hc]
      exact ⟨⟨h1, h2, h3, h4, h5⟩, trivial, trivial⟩
    | ok prev =>
      have hp := stg_ok_pow c d c' prev hwf hres
      have hok := stg_pow_ok c d hwf hp
      rw [hres] at hok
      simp only [Prod.mk.injEq] at hok
      simp only [applyAction, hres, hok.1]
      exact ⟨⟨h1, h2, h3, hp, hwf⟩, trivial, trivial⟩
  | setMaxWrite v =>
    show ConfigInv (c.set_max_write v).1 ∧
      (c.set_max_write v).1.capabilities = c.capabilities ∧
      (c.set_max_write v).1.max_max_readahead = c.max_max_readahead
    rw [KernelConfig.set_max_write]
    split_ifs with hv1 hv2
    · exact ⟨⟨h1, h2, h3, h4, h5⟩, rfl, rfl⟩
    · exact ⟨⟨h1, h2, h3, h4, h5⟩, rfl, rfl⟩
    · exact ⟨⟨h1, (by omega : 0 < v), (by omega : v ≤ MAX_WRITE_SIZE), h4, h5⟩,
        rfl, rfl⟩
  | setMaxReadahead v =>
    show ConfigInv (c.set_max_readahead v).1 ∧
      (c.set_max_readahead v).1.capabilities = c.capabilities ∧
      (c.set_max_readahead v).1.max_max_readahead = c.max_max_readahead
    rw [KernelConfig.set_max_readahead]
    split_ifs with hv1 hv2
    · exact ⟨⟨h1, h2, h3, h4, h5⟩, rfl, rfl⟩
    · exact ⟨⟨h1, h2, h3, h4, h5⟩, rfl, rfl⟩
    · exact ⟨⟨(by omega : v ≤ c.max_max_readahead), h2, h3, h4, h5⟩, rfl, rfl⟩
  | addCaps bits =>
    show ConfigInv (c.add_capabilities bits).1 ∧
      (c.add_capabilities bits).1.capabilities = c.capabilities ∧
      (c.add_capabilities bits).1.max_max_readahead = c.max_max_readahead
    rw [KernelConfig.add_capabilities]
    split_ifs with hb
    · exact ⟨⟨h1, h2, h3, h4, h5⟩, rfl, rfl⟩
    · exact ⟨⟨h1, h2, h3, h4, h5⟩, rfl, rfl⟩
  | setMaxBackground v =>
    show ConfigInv (c.set_max_background v).1 ∧
      (c.set_max_background v).1.capabilities = c.capabilities ∧
      (c.set_max_background v).1.max_max_readahead = c.max_max_readahead
    rw [KernelConfig.set_max_background]
    split_ifs with hv
    · exact ⟨⟨h1, h2, h3, h4, h5⟩, rfl, rfl⟩
    · exact ⟨⟨h1, h2, h3, h4, h5⟩, rfl, rfl⟩
  | setCongestion v =>
    show ConfigInv (c.set_congestion_threshold v).1 ∧
      (c.set_congestion_threshold v).1.capabilities = c.capabilities ∧
      (c.set_congestion_threshold v).1.max_max_readahead = c.max_max_readahead
    rw [KernelConfig.set_congestion_threshold]
    split_ifs with hv
    · exact ⟨⟨h1, h2, h3, h4, h5⟩, rfl, rfl⟩
    · exact ⟨⟨h1, h2, h3, h4, h5⟩, rfl, rfl⟩

theorem foldl_applyAction_preserves (acts : List ConfigAction) :
    ∀ c, (∀ a ∈ acts, a.wf) → ConfigInv c →
      ConfigInv (acts.foldl applyAction c) ∧
      (acts.foldl applyAction c).capabilities = c.capabilities ∧
      (acts.foldl applyAction c).max_max_readahead = c.max_max_readahead := by
  induction acts with
  | nil => exact fun c _ h => ⟨h, rfl, rfl⟩
  | cons a rest ih =>
    intro c hwf h
    have hstep := applyAction_preserves c a (hwf a (by simp)) h
    have hrest := ih (applyAction c a)
      (fun b hb => hwf b (by simp [hb])) hstep.1
    rw [List.foldl_cons]
    exact ⟨hrest.1, hrest.2.1.trans hstep.2.1, hrest.2.2.trans hstep.2.2⟩

/-- C10: starting from `KernelConfig::new` and applying any sequence of
setter calls (with normalized duration arguments), the invariant holds
throughout: `max_readahead ≤ max_max_readahead`,
`0 < max_write ≤ MAX_WRITE_SIZE`, the granularity is an exact power of ten
nanoseconds in `[1ns, 1s]`, and the offered-capabilities field (and the
construction-time readahead bound) is never mutated. -/
theorem kernel_config_invariant (caps mra : Nat) (acts : List ConfigAction)
    (hwf : ∀ a ∈ acts, a.wf) :
    ConfigInv (acts.foldl applyAction (KernelConfig.new caps mra)) ∧
    (acts.foldl applyAction (KernelConfig.new caps mra)).capabilities = caps ∧
    (acts.foldl applyAction (KernelConfig.new caps mra)).max_max_readahead = mra := by
  have hbase : ConfigInv (KernelConfig.new caps mra) := by
    refine ⟨le_refl _, ?_, le_refl _, ⟨0, by omega, ?_⟩, ?_⟩
    · show (0 : Nat) < MAX_WRITE_SIZE
      norm_num [MAX_WRITE_SIZE]
    · show (0 * 1000000000 + 1 : Nat) = 10 ^ 0
      norm_num
    · show (1 : Nat) < 1000000000
      norm_num
  exact foldl_applyAction_preserves acts (KernelConfig.new caps mra) hwf hbase

/-- Witness for C10: a concrete action sequence exercising every setter. -/
theorem kernel_config_invariant_witness :
    (∀ a ∈ [ConfigAction.setTimeGran ⟨0, 150⟩, ConfigAction.setMaxWrite 4096,
        ConfigAction.setMaxReadahead 999999, ConfigAction.addCaps 3,
        ConfigAction.setMaxBackground 32, ConfigAction.setCongestion 24],
      a.wf) ∧
    (ConfigInv ([ConfigAction.setTimeGran ⟨0, 150⟩, ConfigAction.setMaxWrite 4096,
        ConfigAction.setMaxReadahead 999999, ConfigAction.addCaps 3,
        ConfigAction.setMaxBackground 32, ConfigAction.setCongestion 24].foldl
          applyAction (KernelConfig.new 3 8192)) ∧
    ([ConfigAction.setTimeGran ⟨0, 150⟩, ConfigAction.setMaxWrite 4096,
        ConfigAction.setMaxReadahead 999999, ConfigAction.addCaps 3,
        ConfigAction.setMaxBackground 32, ConfigAction.setCongestion 24].foldl
          applyAction (KernelConfig.new 3 8192)).capabilities = 3 ∧
    ([ConfigAction.setTimeGran ⟨0, 150⟩, ConfigAction.setMaxWrite 4096,
        ConfigAction.setMaxReadahead 999999, ConfigAction.addCaps 3,
        ConfigAction.setMaxBackground 32, ConfigAction.setCongestion 24].foldl
          applyAction (KernelConfig.new 3 8192)).max_max_readahead = 8192) := by
  have hwf : ∀ a ∈ [ConfigAction.setTimeGran ⟨0, 150⟩, ConfigAction.setMaxWrite 4096,
      ConfigAction.setMaxReadahead 999999, ConfigAction.addCaps 3,
      ConfigAction.setMaxBackground 32, ConfigAction.setCongestion 24], a.wf := by
    intro a ha
    simp only [List.mem_cons, List.not_mem_nil, or_false] at ha
    rcases ha with rfl | rfl | rfl | rfl | rfl | rfl <;>
      first
        | exact (by decide : (150 : Nat) < 1000000000)
        | trivial
  exact ⟨hwf, kernel_config_invariant 3 8192 _ hwf⟩

/-! Embedding of the default implementations of the operation surface (C1).
One constructor per method of the `Filesystem` trait as compiled on Linux
with every `abi-7-*` feature enabled; the macOS-only operations
(`setvolname`, `exchange`, `getxtimes`) do not exist in this configuration. -/

inductive Op where
  | init
  | destroy
  | lookup
  | forget
  | batch_forget
  | getattr
  | setattr
  | readlink
  | mknod
  | mkdir
  | unlink
  | rmdir
  | symlink
  | rename
  | link
  | «open»
  | read
  | write
  | flush
  | release
  | fsync
  | opendir
  | readdir
  | readdirplus
  | releasedir
  | fsyncdir
  | statfs
  | setxattr
  | getxattr
  | listxattr
  | removexattr
  | access
  | create
  | getlk
  | setlk
  | bmap
  | ioctl
  | poll
  | fallocate
  | lseek
  | copy_file_range
deriving DecidableEq

/-- The terminal call a default implementation makes on its reply handle.
`noReply` marks the operations that carry no reply handle (`init`,
`destroy`, `forget`, `batch_forget`). The `statfs` constructor mirrors the
argument order of `ReplyStatfs::statfs` (modelled from the spec, `reply.rs`
being outside the sources under scrutiny): blocks, bfree, bavail, files,
ffree, bsize, namelen, frsize. -/
inductive DefaultReply where
  | error (errno : Nat)
  | opened (fh : Nat) (flags : Nat)
  | ok
  | statfs (blocks bfree bavail files ffree : Nat) (bsize namelen frsize : Nat)
  | noReply
deriving DecidableEq

/-- Log level of the log statement a default implementation executes;
`silent` marks defaults that log nothing. -/
inductive LogLevel where
  | warn
  | debug
  | silent
deriving DecidableEq

/-- The reply outcome of each default implementation, read off the bodies in
`filesystem.rs` (the payload strings of the log calls are elided; levels are
kept in `defaultLog`). -/
def defaultReply : Op → DefaultReply
  | .init => .noReply
  | .destroy => .noReply
  | .lookup => .error ENOSYS
  | .forget => .noReply
  | .batch_forget => .noReply
  | .getattr => .error ENOSYS
  | .setattr => .error ENOSYS
  | .readlink => .error ENOSYS
  | .mknod => .error ENOSYS
  | .mkdir => .error ENOSYS
  | .unlink => .error ENOSYS
  | .rmdir => .error ENOSYS
  | .symlink => .error EPERM
  | .rename => .error ENOSYS
  | .link => .error EPERM
  | .«open» => .opened 0 0
  | .read => .error ENOSYS
  | .write => .error ENOSYS
  | .flush => .error ENOSYS
  | .release => .ok
  | .fsync => .error ENOSYS
  | .opendir => .opened 0 0
  | .readdir => .error ENOSYS
  | .readdirplus => .error ENOSYS
  | .releasedir => .ok
  | .fsyncdir => .error ENOSYS
  | .statfs => .statfs 0 0 0 0 0 512 255 0
  | .setxattr => .error ENOSYS
  | .getxattr => .error ENOSYS
  | .listxattr => .error ENOSYS
  | .removexattr => .error ENOSYS
  | .access => .error ENOSYS
  | .create => .error ENOSYS
  | .getlk => .error ENOSYS
  | .setlk => .error ENOSYS
  | .bmap => .error ENOSYS
  | .ioctl => .error ENOSYS
  | .poll => .error ENOSYS
  | .fallocate => .error ENOSYS
  | .lseek => .error ENOSYS
  | .copy_file_range => .error ENOSYS

/-- The level of the log statement in each default implementation, read off
the bodies in `filesystem.rs`. -/
def defaultLog : Op → LogLevel
  | .init => .silent
  | .destroy => .silent
  | .lookup => .warn
  | .forget => .silent
  | .batch_forget => .silent
  | .getattr => .warn
  | .setattr => .debug
  | .readlink => .debug
  | .mknod => .debug
  | .mkdir => .debug
  | .unlink => .debug
  | .rmdir => .debug
  | .symlink => .debug
  | .rename => .debug
  | .link => .debug
  | .«open» => .silent
  | .read => .warn
  | .write => .debug
  | .flush => .debug
  | .release => .silent
  | .fsync => .debug
  | .opendir => .silent
  | .readdir => .warn
  | .readdirplus => .debug
  | .releasedir => .silent
  | .fsyncdir => .debug
  | .statfs => .silent
  | .setxattr => .debug
  | .getxattr => .debug
  | .listxattr => .debug
  | .removexattr => .debug
  | .access => .debug
  | .create => .debug
  | .getlk => .debug
  | .setlk => .debug
  | .bmap => .debug
  | .ioctl => .debug
  | .poll => .debug
  | .fallocate => .debug
  | .lseek => .debug
  | .copy_file_range => .debug

/-- Tests whether a default reply is an error reply. -/
def DefaultReply.isError : DefaultReply → Bool
  | .error _ => true
  | _ => false

/-- C1 (amended): every default implementation terminates the reply with the
documented outcome — ENOSYS for the not-implemented defaults, EPERM for
`symlink` and `link`, success with a zero file handle for `open` and
`opendir`, unconditional success for `release` and `releasedir`, and for
`statfs` an all-zero volume report except the conventional block size 512
and maximum filename length 255; the warning-level log covers exactly
`lookup`, `getattr`, `read` and `readdir`, the debug-level log covers
exactly the remaining error-replying defaults, and the success and
no-reply defaults log nothing. -/
theorem default_surface (op : Op) :
    (defaultLog op = .warn ↔
      (op = .lookup ∨ op = .getattr ∨ op = .read ∨ op = .readdir)) ∧
    (defaultLog op = .debug ↔
      ((defaultReply op).isError = true ∧
        ¬(op = .lookup ∨ op = .getattr ∨ op = .read ∨ op = .readdir))) ∧
    (defaultLog op = .silent ↔ (defaultReply op).isError = false) ∧
    (defaultReply op = .error EPERM ↔ (op = .symlink ∨ op = .link)) ∧
    ((defaultReply op).isError = true →
      defaultReply op = .error ENOSYS ∨ defaultReply op = .error EPERM) ∧
    ((op = .«open» ∨ op = .opendir) ↔ defaultReply op = .opened 0 0) ∧
    ((op = .release ∨ op = .releasedir) ↔ defaultReply op = .ok) ∧
    (op = .statfs ↔ defaultReply op = .statfs 0 0 0 0 0 512 255 0) := by
  cases op <;> decide

/-- Witness for C1 at the concrete operation `mkdir` (the theorem's inner
implications instantiated and its table evaluated). -/
theorem default_surface_witness :
    (defaultLog .mkdir = .warn ↔
      (Op.mkdir = .lookup ∨ Op.mkdir = .getattr ∨ Op.mkdir = .read ∨
        Op.mkdir = .readdir)) ∧
    (defaultLog .mkdir = .debug ↔
      ((defaultReply .mkdir).isError = true ∧
        ¬(Op.mkdir = .lookup ∨ Op.mkdir = .getattr ∨ Op.mkdir = .read ∨
          Op.mkdir = .readdir))) ∧
    (defaultLog .mkdir = .silent ↔ (defaultReply .mkdir).isError = false) ∧
    (defaultReply .mkdir = .error EPERM ↔
      (Op.mkdir = .symlink ∨ Op.mkdir = .link)) ∧
    ((defaultReply .mkdir).isError = true →
      defaultReply .mkdir = .error ENOSYS ∨ defaultReply .mkdir = .error EPERM) ∧
    ((Op.mkdir = .«open» ∨ Op.mkdir = .opendir) ↔
      defaultReply .mkdir = .opened 0 0) ∧
    ((Op.mkdir = .release ∨ Op.mkdir = .releasedir) ↔
      defaultReply .mkdir = .ok) ∧
    (Op.mkdir = .statfs ↔ defaultReply .mkdir = .statfs 0 0 0 0 0 512 255 0) :=
  default_surface .mkdir

/-- C1 counterexample: the default `read` logs at warning level, not debug,
although `read` is neither of the universal queries `lookup` and `getattr`
the claim reserves the warning level for. -/
theorem default_surface_counterexample :
    defaultLog .read = .warn ∧ Op.read ≠ .lookup ∧ Op.read ≠ .getattr ∧
    defaultLog .read ≠ .debug := by
  decide

/-! Embedding of the exclusive-access operation surface and the
`FilesystemAdapter` (C9). External argument and reply-handle types are
opaque placeholders: the adapter only passes them through. `OsStr` and
`Path` arguments are modelled as `String`, byte slices as `List Nat`,
`u64`/`u32` as `Nat` and `i64`/`i32` as `Int`. -/

structure Request where data : Nat

structure SystemTime where data : Nat

structure TimeOrNow where data : Nat

structure ReplyEntry where data : Nat

structure ReplyAttr where data : Nat

structure ReplyData where data : Nat

structure ReplyEmpty where data : Nat

structure ReplyOpen where data : Nat

structure ReplyWrite where data : Nat

structure ReplyStatfs where data : Nat

structure ReplyXattr where data : Nat

structure ReplyCreate where data : Nat

structure ReplyLock where data : Nat

structure ReplyBmap where data : Nat

structure ReplyIoctl where data : Nat

structure ReplyPoll where data : Nat

structure ReplyDirectory where data : Nat

structure ReplyDirectoryPlus where data : Nat

structure ReplyLseek where data : Nat

/-- The exclusive-access (`&mut self`) operation surface: one field per
method of the `Filesystem` trait (Linux, all features), with the Rust
signature translated argument for argument. The implementation state `σ`
stands for `self`; each method consumes its reply handle and returns the
mutated state (`init` additionally returns the possibly-mutated
`KernelConfig` and its `Result`). -/
structure Filesystem (σ : Type) where
  init : σ → Request → KernelConfig → σ × KernelConfig × Except Int Unit
  destroy : σ → σ
  lookup : σ → Request → Nat → String → ReplyEntry → σ
  forget : σ → Request → Nat → Nat → σ
  batch_forget : σ → Request → List fuse_forget_one → σ
  getattr : σ → Request → Nat → ReplyAttr → σ
  setattr : σ → Request → Nat → Option Nat → Option Nat → Option Nat →
    Option Nat → Option TimeOrNow → Option TimeOrNow → Option SystemTime →
    Option Nat → Option SystemTime → Option SystemTime → Option SystemTime →
    Option Nat → ReplyAttr → σ
  readlink : σ → Request → Nat → ReplyData → σ
  mknod : σ → Request → Nat → String → Nat → Nat → Nat → ReplyEntry → σ
  mkdir : σ → Request → Nat → String → Nat → Nat → ReplyEntry → σ
  unlink : σ → Request → Nat → String → ReplyEmpty → σ
  rmdir : σ → Request → Nat → String → ReplyEmpty → σ
  symlink : σ → Request → Nat → String → String → ReplyEntry → σ
  rename : σ → Request → Nat → String → Nat → String → Nat → ReplyEmpty → σ
  link : σ → Request → Nat → Nat → String → ReplyEntry → σ
  «open» : σ → Request → Nat → Int → ReplyOpen → σ
  read : σ → Request → Nat → Nat → Int → Nat → Int → Option Nat → ReplyData → σ
  write : σ → Request → Nat → Nat → Int → List Nat → Nat → Int → Option Nat →
    ReplyWrite → σ
  flush : σ → Request → Nat → Nat → Nat → ReplyEmpty → σ
  release : σ → Request → Nat → Nat → Int → Option Nat → Bool → ReplyEmpty → σ
  fsync : σ → Request → Nat → Nat → Bool → ReplyEmpty → σ
  opendir : σ → Request → Nat → Int → ReplyOpen → σ
  readdir : σ → Request → Nat → Nat → Int → ReplyDirectory → σ
  readdirplus : σ → Request → Nat → Nat → Int → ReplyDirectoryPlus → σ
  releasedir : σ → Request → Nat → Nat → Int → ReplyEmpty → σ
  fsyncdir : σ → Request → Nat → Nat → Bool → ReplyEmpty → σ
  statfs : σ → Request → Nat → ReplyStatfs → σ
  setxattr : σ → Request → Nat → String → List Nat → Int → Nat → ReplyEmpty → σ
  getxattr : σ → Request → Nat → String → Nat → ReplyXattr → σ
  listxattr : σ → Request → Nat → Nat → ReplyXattr → σ
  removexattr : σ → Request → Nat → String → ReplyEmpty → σ
  access : σ → Request → Nat → Int → ReplyEmpty → σ
  create : σ → Request → Nat → String → Nat → Nat → Int → ReplyCreate → σ
  getlk : σ → Request → Nat → Nat → Nat → Nat → Nat → Int → Nat → ReplyLock → σ
  setlk : σ → Request → Nat → Nat → Nat → Nat → Nat → Int → Nat → Bool →
    ReplyEmpty → σ
  bmap : σ → Request → Nat → Nat → Nat → ReplyBmap → σ
  ioctl : σ → Request → Nat → Nat → Nat → Nat → List Nat → Nat → ReplyIoctl → σ
  poll : σ → Request → Nat → Nat → Nat → Nat → Nat → ReplyPoll → σ
  fallocate : σ → Request → Nat → Nat → Int → Int → Int → ReplyEmpty → σ
  lseek : σ → Request → Nat → Nat → Int → Int → ReplyLseek → σ
  copy_file_range : σ → Request → Nat → Nat → Int → Nat → Nat → Int → Nat →
    Nat → ReplyWrite → σ

/-- Embeds `std::cell::RefCell` for the single-threaded discipline the
adapter relies on: a value plus the single-occupancy borrow flag. -/
structure RefCell (α : Type) where
  value : α
  borrowed : Bool

/-- Embeds `RefCell::borrow_mut`: acquiring the exclusive borrow fails
(Rust panics with `BorrowMutError`, modelled as `none`) when a borrow is
outstanding. -/
def RefCell.borrow_mut {α : Type} (r : RefCell α) : Option (RefCell α) :=
  if r.borrowed then none else some { r with borrowed := true }

/-- Embeds the `FilesystemAdapter` struct: the wrapped exclusive-access
implementation state behind a `RefCell`. -/
structure FilesystemAdapter (σ : Type) where
  fs : RefCell σ

/-- The body shape shared by every adapter method,
`self.fs.borrow_mut().method(args...)`: acquire the single-occupancy
borrow, run the exclusive-access method on the borrowed value, and release
the borrow when the call returns. -/
def FilesystemAdapter.run {σ : Type} (a : FilesystemAdapter σ) (m : σ → σ) :
    Option (FilesystemAdapter σ) :=
  match a.fs.borrow_mut with
  | none => none
  | some r => some ⟨{ value := m r.value, borrowed := false }⟩

def FilesystemAdapter.init {σ : Type} (F : Filesystem σ) (a : FilesystemAdapter σ)
    (req : Request) (config : KernelConfig) :
    Option (FilesystemAdapter σ × KernelConfig × Except Int Unit) :=
  match a.fs.borrow_mut with
  | none => none
  | some r =>
    let res := F.init r.value req config
    some (⟨{ value := res.1, borrowed := false }⟩, res.2.1, res.2.2)

def FilesystemAdapter.destroy {σ : Type} (F : Filesystem σ)
    (a : FilesystemAdapter σ) : Option (FilesystemAdapter σ) :=
  a.run fun fs => F.destroy fs

def FilesystemAdapter.lookup {σ : Type} (F : Filesystem σ)
    (a : FilesystemAdapter σ) (req : Request) (parent : Nat) (name : String)
    (reply : ReplyEntry) : Option (FilesystemAdapter σ) :=
  a.run fun fs => F.lookup fs req parent name reply

def FilesystemAdapter.forget {σ : Type} (F : Filesystem σ)
    (a : FilesystemAdapter σ) (req : Request) (ino nlookup : Nat) :
    Option (FilesystemAdapter σ) :=
  a.run fun fs => F.forget fs req ino nlookup

def FilesystemAdapter.batch_forget {σ : Type} (F : Filesystem σ)
    (a : FilesystemAdapter σ) (req : Request) (nodes : List fuse_forget_one) :
    Option (FilesystemAdapter σ) :=
  a.run fun fs => F.batch_forget fs req nodes

def FilesystemAdapter.getattr {σ : Type} (F : Filesystem σ)
    (a : FilesystemAdapter σ) (req : Request) (ino : Nat) (reply : ReplyAttr) :
    Option (FilesystemAdapter σ) :=
  a.run fun fs => F.getattr fs req ino reply

def FilesystemAdapter.setattr {σ : Type} (F : Filesystem σ)
    (a : FilesystemAdapter σ) (req : Request) (ino : Nat)
    (mode uid gid : Option Nat) (size : Option Nat)
    (atime mtime : Option TimeOrNow) (ctime : Option SystemTime)
    (fh : Option Nat) (crtime chgtime bkuptime : Option SystemTime)
    (flags : Option Nat) (reply : ReplyAttr) : Option (FilesystemAdapter σ) :=
  a.run fun fs =>
    F.setattr fs req ino mode uid gid size atime mtime ctime fh crtime chgtime
      bkuptime flags reply

def FilesystemAdapter.readlink {σ : Type} (F : Filesystem σ)
    (a : FilesystemAdapter σ) (req : Request) (ino : Nat) (reply : ReplyData) :
    Option (FilesystemAdapter σ) :=
  a.run fun fs => F.readlink fs req ino reply

def FilesystemAdapter.mknod {σ : Type} (F : Filesystem σ)
    (a : FilesystemAdapter σ) (req : Request) (parent : Nat) (name : String)
    (mode umask rdev : Nat) (reply : ReplyEntry) : Option (FilesystemAdapter σ) :=
  a.run fun fs => F.mknod fs req parent name mode umask rdev reply

def FilesystemAdapter.mkdir {σ : Type} (F : Filesystem σ)
    (a : FilesystemAdapter σ) (req : Request) (parent : Nat) (name : String)
    (mode umask : Nat) (reply : ReplyEntry) : Option (FilesystemAdapter σ) :=
  a.run fun fs => F.mkdir fs req parent name mode umask reply

def FilesystemAdapter.unlink {σ : Type} (F : Filesystem σ)
    (a : FilesystemAdapter σ) (req : Request) (parent : Nat) (name : String)
    (reply : ReplyEmpty) : Option (FilesystemAdapter σ) :=
  a.run fun fs => F.unlink fs req parent name reply

def FilesystemAdapter.rmdir {σ : Type} (F : Filesystem σ)
    (a : FilesystemAdapter σ) (req : Request) (parent : Nat) (name : String)
    (reply : ReplyEmpty) : Option (FilesystemAdapter σ) :=
  a.run fun fs => F.rmdir fs req parent name reply

def FilesystemAdapter.symlink {σ : Type} (F : Filesystem σ)
    (a : FilesystemAdapter σ) (req : Request) (parent : Nat)
    (link_name target : String) (reply : ReplyEntry) :
    Option (FilesystemAdapter σ) :=
  a.run fun fs => F.symlink fs req parent link_name target reply

def FilesystemAdapter.rename {σ : Type} (F : Filesystem σ)
    (a : FilesystemAdapter σ) (req : Request) (parent : Nat) (name : String)
    (newparent : Nat) (newname : String) (flags : Nat) (reply : ReplyEmpty) :
    Option (FilesystemAdapter σ) :=
  a.run fun fs => F.rename fs req parent name newparent newname flags reply

def FilesystemAdapter.link {σ : Type} (F : Filesystem σ)
    (a : FilesystemAdapter σ) (req : Request) (ino newparent : Nat)
    (newname : String) (reply : ReplyEntry) : Option (FilesystemAdapter σ) :=
  a.run fun fs => F.link fs req ino newparent newname reply

def FilesystemAdapter.«open» {σ : Type} (F : Filesystem σ)
    (a : FilesystemAdapter σ) (req : Request) (ino : Nat) (flags : Int)
    (reply : ReplyOpen) : Option (FilesystemAdapter σ) :=
  a.run fun fs => F.«open» fs req ino flags reply

def FilesystemAdapter.read {σ : Type} (F : Filesystem σ)
    (a : FilesystemAdapter σ) (req : Request) (ino fh : Nat) (offset : Int)
    (size : Nat) (flags : Int) (lock_owner : Option Nat) (reply : ReplyData) :
    Option (FilesystemAdapter σ) :=
  a.run fun fs => F.read fs req ino fh offset size flags lock_owner reply

def FilesystemAdapter.write {σ : Type} (F : Filesystem σ)
    (a : FilesystemAdapter σ) (req : Request) (ino fh : Nat) (offset : Int)
    (data : List Nat) (write_flags : Nat) (flags : Int)
    (lock_owner : Option Nat) (reply : ReplyWrite) :
    Option (FilesystemAdapter σ) :=
  a.run fun fs =>
    F.write fs req ino fh offset data write_flags flags lock_owner reply

def FilesystemAdapter.flush {σ : Type} (F : Filesystem σ)
    (a : FilesystemAdapter σ) (req : Request) (ino fh lock_owner : Nat)
    (reply : ReplyEmpty) : Option (FilesystemAdapter σ) :=
  a.run fun fs => F.flush fs req ino fh lock_owner reply

def FilesystemAdapter.release {σ : Type} (F : Filesystem σ)
    (a : FilesystemAdapter σ) (req : Request) (ino fh : Nat) (flags : Int)
    (lock_owner : Option Nat) (flush : Bool) (reply : ReplyEmpty) :
    Option (FilesystemAdapter σ) :=
  a.run fun fs => F.release fs req ino fh flags lock_owner flush reply

def FilesystemAdapter.fsync {σ : Type} (F : Filesystem σ)
    (a : FilesystemAdapter σ) (req : Request) (ino fh : Nat) (datasync : Bool)
    (reply : ReplyEmpty) : Option (FilesystemAdapter σ) :=
  a.run fun fs => F.fsync fs req ino fh datasync reply

def FilesystemAdapter.opendir {σ : Type} (F : Filesystem σ)
    (a : FilesystemAdapter σ) (req : Request) (ino : Nat) (flags : Int)
    (reply : ReplyOpen) : Option (FilesystemAdapter σ) :=
  a.run fun fs => F.opendir fs req ino flags reply

def FilesystemAdapter.readdir {σ : Type} (F : Filesystem σ)
    (a : FilesystemAdapter σ) (req : Request) (ino fh : Nat) (offset : Int)
    (reply : ReplyDirectory) : Option (FilesystemAdapter σ) :=
  a.run fun fs => F.readdir fs req ino fh offset reply

def FilesystemAdapter.readdirplus {σ : Type} (F : Filesystem σ)
    (a : FilesystemAdapter σ) (req : Request) (ino fh : Nat) (offset : Int)
    (reply : ReplyDirectoryPlus) : Option (FilesystemAdapter σ) :=
  a.run fun fs => F.readdirplus fs req ino fh offset reply

def FilesystemAdapter.releasedir {σ : Type} (F : Filesystem σ)
    (a : FilesystemAdapter σ) (req : Request) (ino fh : Nat) (flags : Int)
    (reply : ReplyEmpty) : Option (FilesystemAdapter σ) :=
  a.run fun fs => F.releasedir fs req ino fh flags reply

def FilesystemAdapter.fsyncdir {σ : Type} (F : Filesystem σ)
    (a : FilesystemAdapter σ) (req : Request) (ino fh : Nat) (datasync : Bool)
    (reply : ReplyEmpty) : Option (FilesystemAdapter σ) :=
  a.run fun fs => F.fsyncdir fs req ino fh datasync reply

def FilesystemAdapter.statfs {σ : Type} (F : Filesystem σ)
    (a : FilesystemAdapter σ) (req : Request) (ino : Nat)
    (reply : ReplyStatfs) : Option (FilesystemAdapter σ) :=
  a.run fun fs => F.statfs fs req ino reply

def FilesystemAdapter.setxattr {σ : Type} (F : Filesystem σ)
    (a : FilesystemAdapter σ) (req : Request) (ino : Nat) (name : String)
    (value : List Nat) (flags : Int) (position : Nat) (reply : ReplyEmpty) :
    Option (FilesystemAdapter σ) :=
  a.run fun fs => F.setxattr fs req ino name value flags position reply

def FilesystemAdapter.getxattr {σ : Type} (F : Filesystem σ)
    (a : FilesystemAdapter σ) (req : Request) (ino : Nat) (name : String)
    (size : Nat) (reply : ReplyXattr) : Option (FilesystemAdapter σ) :=
  a.run fun fs => F.getxattr fs req ino name size reply

def FilesystemAdapter.listxattr {σ : Type} (F : Filesystem σ)
    (a : FilesystemAdapter σ) (req : Request) (ino size : Nat)
    (reply : ReplyXattr) : Option (FilesystemAdapter σ) :=
  a.run fun fs => F.listxattr fs req ino size reply

def FilesystemAdapter.removexattr {σ : Type} (F : Filesystem σ)
    (a : FilesystemAdapter σ) (req : Request) (ino : Nat) (name : String)
    (reply : ReplyEmpty) : Option (FilesystemAdapter σ) :=
  a.run fun fs => F.removexattr fs req ino name reply

def FilesystemAdapter.access {σ : Type} (F : Filesystem σ)
    (a : FilesystemAdapter σ) (req : Request) (ino : Nat) (mask : Int)
    (reply : ReplyEmpty) : Option (FilesystemAdapter σ) :=
  a.run fun fs => F.access fs req ino mask reply

def FilesystemAdapter.create {σ : Type} (F : Filesystem σ)
    (a : FilesystemAdapter σ) (req : Request) (parent : Nat) (name : String)
    (mode umask : Nat) (flags : Int) (reply : ReplyCreate) :
    Option (FilesystemAdapter σ) :=
  a.run fun fs => F.create fs req parent name mode umask flags reply

def FilesystemAdapter.getlk {σ : Type} (F : Filesystem σ)
    (a : FilesystemAdapter σ) (req : Request)
    (ino fh lock_owner start finish : Nat) (typ : Int) (pid : Nat)
    (reply : ReplyLock) : Option (FilesystemAdapter σ) :=
  a.run fun fs => F.getlk fs req ino fh lock_owner start finish typ pid reply

def FilesystemAdapter.setlk {σ : Type} (F : Filesystem σ)
    (a : FilesystemAdapter σ) (req : Request)
    (ino fh lock_owner start finish : Nat) (typ : Int) (pid : Nat)
    (sleep : Bool) (reply : ReplyEmpty) : Option (FilesystemAdapter σ) :=
  a.run fun fs =>
    F.setlk fs req ino fh lock_owner start finish typ pid sleep reply

def FilesystemAdapter.bmap {σ : Type} (F : Filesystem σ)
    (a : FilesystemAdapter σ) (req : Request) (ino blocksize idx : Nat)
    (reply : ReplyBmap) : Option (FilesystemAdapter σ) :=
  a.run fun fs => F.bmap fs req ino blocksize idx reply

def FilesystemAdapter.ioctl {σ : Type} (F : Filesystem σ)
    (a : FilesystemAdapter σ) (req : Request) (ino fh flags cmd : Nat)
    (in_data : List Nat) (out_size : Nat) (reply : ReplyIoctl) :
    Option (FilesystemAdapter σ) :=
  a.run fun fs => F.ioctl fs req ino fh flags cmd in_data out_size reply

def FilesystemAdapter.poll {σ : Type} (F : Filesystem σ)
    (a : FilesystemAdapter σ) (req : Request) (ino fh kh events flags : Nat)
    (reply : ReplyPoll) : Option (FilesystemAdapter σ) :=
  a.run fun fs => F.poll fs req ino fh kh events flags reply

def FilesystemAdapter.fallocate {σ : Type} (F : Filesystem σ)
    (a : FilesystemAdapter σ) (req : Request) (ino fh : Nat)
    (offset length : Int) (mode : Int) (reply : ReplyEmpty) :
    Option (FilesystemAdapter σ) :=
  a.run fun fs => F.fallocate fs req ino fh offset length mode reply

def FilesystemAdapter.lseek {σ : Type} (F : Filesystem σ)
    (a : FilesystemAdapter σ) (req : Request) (ino fh : Nat) (offset : Int)
    (whence : Int) (reply : ReplyLseek) : Option (FilesystemAdapter σ) :=
  a.run fun fs => F.lseek fs req ino fh offset whence reply

def FilesystemAdapter.copy_file_range {σ : Type} (F : Filesystem σ)
    (a : FilesystemAdapter σ) (req : Request) (ino_in fh_in : Nat)
    (offset_in : Int) (ino_out fh_out : Nat) (offset_out : Int)
    (len flags : Nat) (reply : ReplyWrite) : Option (FilesystemAdapter σ) :=
  a.run fun fs =>
    F.copy_file_range fs req ino_in fh_in offset_in ino_out fh_out offset_out
      len flags reply

/-- C9: starting from an unoccupied adapter, every shared-access method
acquires the single-occupancy borrow, forwards the call unchanged — the same
arguments in the same order and the same reply handle — to the corresponding
exclusive-access method, and returns with the borrow released; and while a
borrow is outstanding, acquisition fails rather than forwarding. -/
theorem adapter_forwards_unchanged {σ : Type} (F : Filesystem σ) (s : σ) :
    (∀ req config, FilesystemAdapter.init F ⟨⟨s, false⟩⟩ req config =
      some (⟨⟨(F.init s req config).1, false⟩⟩, (F.init s req config).2.1,
        (F.init s req config).2.2)) ∧
    FilesystemAdapter.destroy F ⟨⟨s, false⟩⟩ = some ⟨⟨F.destroy s, false⟩⟩ ∧
    (∀ req parent name reply,
      FilesystemAdapter.lookup F ⟨⟨s, false⟩⟩ req parent name reply =
        some ⟨⟨F.lookup s req parent name reply, false⟩⟩) ∧
    (∀ req ino nlookup,
      FilesystemAdapter.forget F ⟨⟨s, false⟩⟩ req ino nlookup =
        some ⟨⟨F.forget s req ino nlookup, false⟩⟩) ∧
    (∀ req nodes,
      FilesystemAdapter.batch_forget F ⟨⟨s, false⟩⟩ req nodes =
        some ⟨⟨F.batch_forget s req nodes, false⟩⟩) ∧
    (∀ req ino reply,
      FilesystemAdapter.getattr F ⟨⟨s, false⟩⟩ req ino reply =
        some ⟨⟨F.getattr s req ino reply, false⟩⟩) ∧
    (∀ req ino mode uid gid size atime mtime ctime fh crtime chgtime bkuptime
        flags reply,
      FilesystemAdapter.setattr F ⟨⟨s, false⟩⟩ req ino mode uid gid size atime
          mtime ctime fh crtime chgtime bkuptime flags reply =
        some ⟨⟨F.setattr s req ino mode uid gid size atime mtime ctime fh
          crtime chgtime bkuptime flags reply, false⟩⟩) ∧
    (∀ req ino reply,
      FilesystemAdapter.readlink F ⟨⟨s, false⟩⟩ req ino reply =
        some ⟨⟨F.readlink s req ino reply, false⟩⟩) ∧
    (∀ req parent name mode umask rdev reply,
      FilesystemAdapter.mknod F ⟨⟨s, false⟩⟩ req parent name mode umask rdev
          reply =
        some ⟨⟨F.mknod s req parent name mode umask rdev reply, false⟩⟩) ∧
    (∀ req parent name mode umask reply,
      FilesystemAdapter.mkdir F ⟨⟨s, false⟩⟩ req parent name mode umask reply =
        some ⟨⟨F.mkdir s req parent name mode umask reply, false⟩⟩) ∧
    (∀ req parent name reply,
      FilesystemAdapter.unlink F ⟨⟨s, false⟩⟩ req parent name reply =
        some ⟨⟨F.unlink s req parent name reply, false⟩⟩) ∧
    (∀ req parent name reply,
      FilesystemAdapter.rmdir F ⟨⟨s, false⟩⟩ req parent name reply =
        some ⟨⟨F.rmdir s req parent name reply, false⟩⟩) ∧
    (∀ req parent link_name target reply,
      FilesystemAdapter.symlink F ⟨⟨s, false⟩⟩ req parent link_name target
          reply =
        some ⟨⟨F.symlink s req parent link_name target reply, false⟩⟩) ∧
    (∀ req parent name newparent newname flags reply,
      FilesystemAdapter.rename F ⟨⟨s, false⟩⟩ req parent name newparent newname
          flags reply =
        some ⟨⟨F.rename s req parent name newparent newname flags reply,
          false⟩⟩) ∧
    (∀ req ino newparent newname reply,
      FilesystemAdapter.link F ⟨⟨s, false⟩⟩ req ino newparent newname reply =
        some ⟨⟨F.link s req ino newparent newname reply, false⟩⟩) ∧
    (∀ req ino flags reply,
      FilesystemAdapter.«open» F ⟨⟨s, false⟩⟩ req ino flags reply =
        some ⟨⟨F.«open» s req ino flags reply, false⟩⟩) ∧
    (∀ req ino fh offset size flags lock_owner reply,
      FilesystemAdapter.read F ⟨⟨s, false⟩⟩ req ino fh offset size flags
          lock_owner reply =
        some ⟨⟨F.read s req ino fh offset size flags lock_owner reply,
          false⟩⟩) ∧
    (∀ req ino fh offset data write_flags flags lock_owner reply,
      FilesystemAdapter.write F ⟨⟨s, false⟩⟩ req ino fh offset data write_flags
          flags lock_owner reply =
        some ⟨⟨F.write s req ino fh offset data write_flags flags lock_owner
          reply, false⟩⟩) ∧
    (∀ req ino fh lock_owner reply,
      FilesystemAdapter.flush F ⟨⟨s, false⟩⟩ req ino fh lock_owner reply =
        some ⟨⟨F.flush s req ino fh lock_owner reply, false⟩⟩) ∧
    (∀ req ino fh flags lock_owner flush reply,
      FilesystemAdapter.release F ⟨⟨s, false⟩⟩ req ino fh flags lock_owner
          flush reply =
        some ⟨⟨F.release s req ino fh flags lock_owner flush reply, false⟩⟩) ∧
    (∀ req ino fh datasync reply,
      FilesystemAdapter.fsync F ⟨⟨s, false⟩⟩ req ino fh datasync reply =
        some ⟨⟨F.fsync s req ino fh datasync reply, false⟩⟩) ∧
    (∀ req ino flags reply,
      FilesystemAdapter.opendir F ⟨⟨s, false⟩⟩ req ino flags reply =
        some ⟨⟨F.opendir s req ino flags reply, false⟩⟩) ∧
    (∀ req ino fh offset reply,
      FilesystemAdapter.readdir F ⟨⟨s, false⟩⟩ req ino fh offset reply =
        some ⟨⟨F.readdir s req ino fh offset reply, false⟩⟩) ∧
    (∀ req ino fh offset reply,
      FilesystemAdapter.readdirplus F ⟨⟨s, false⟩⟩ req ino fh offset reply =
        some ⟨⟨F.readdirplus s req ino fh offset reply, false⟩⟩) ∧
    (∀ req ino fh flags reply,
      FilesystemAdapter.releasedir F ⟨⟨s, false⟩⟩ req ino fh flags reply =
        some ⟨⟨F.releasedir s req ino fh flags reply, false⟩⟩) ∧
    (∀ req ino fh datasync reply,
      FilesystemAdapter.fsyncdir F ⟨⟨s, false⟩⟩ req ino fh datasync reply =
        some ⟨⟨F.fsyncdir s req ino fh datasync reply, false⟩⟩) ∧
    (∀ req ino reply,
      FilesystemAdapter.statfs F ⟨⟨s, false⟩⟩ req ino reply =
        some ⟨⟨F.statfs s req ino reply, false⟩⟩) ∧
    (∀ req ino name value flags position reply,
      FilesystemAdapter.setxattr F ⟨⟨s, false⟩⟩ req ino name value flags
          position reply =
        some ⟨⟨F.setxattr s req ino name value flags position reply,
          false⟩⟩) ∧
    (∀ req ino name size reply,
      FilesystemAdapter.getxattr F ⟨⟨s, false⟩⟩ req ino name size reply =
        some ⟨⟨F.getxattr s req ino name size reply, false⟩⟩) ∧
    (∀ req ino size reply,
      FilesystemAdapter.listxattr F ⟨⟨s, false⟩⟩ req ino size reply =
        some ⟨⟨F.listxattr s req ino size reply, false⟩⟩) ∧
    (∀ req ino name reply,
      FilesystemAdapter.removexattr F ⟨⟨s, false⟩⟩ req ino name reply =
        some ⟨⟨F.removexattr s req ino name reply, false⟩⟩) ∧
    (∀ req ino mask reply,
      FilesystemAdapter.access F ⟨⟨s, false⟩⟩ req ino mask reply =
        some ⟨⟨F.access s req ino mask reply, false⟩⟩) ∧
    (∀ req parent name mode umask flags reply,
      FilesystemAdapter.create F ⟨⟨s, false⟩⟩ req parent name mode umask flags
          reply =
        some ⟨⟨F.create s req parent name mode umask flags reply, false⟩⟩) ∧
    (∀ req ino fh lock_owner start finish typ pid reply,
      FilesystemAdapter.getlk F ⟨⟨s, false⟩⟩ req ino fh lock_owner start finish
          typ pid reply =
        some ⟨⟨F.getlk s req ino fh lock_owner start finish typ pid reply,
          false⟩⟩) ∧
    (∀ req ino fh lock_owner start finish typ pid sleep reply,
      FilesystemAdapter.setlk F ⟨⟨s, false⟩⟩ req ino fh lock_owner start finish
          typ pid sleep reply =
        some ⟨⟨F.setlk s req ino fh lock_owner start finish typ pid sleep
          reply, false⟩⟩) ∧
    (∀ req ino blocksize idx reply,
      FilesystemAdapter.bmap F ⟨⟨s, false⟩⟩ req ino blocksize idx reply =
        some ⟨⟨F.bmap s req ino blocksize idx reply, false⟩⟩) ∧
    (∀ req ino fh flags cmd in_data out_size reply,
      FilesystemAdapter.ioctl F ⟨⟨s, false⟩⟩ req ino fh flags cmd in_data
          out_size reply =
        some ⟨⟨F.ioctl s req ino fh flags cmd in_data out_size reply,
          false⟩⟩) ∧
    (∀ req ino fh kh events flags reply,
      FilesystemAdapter.poll F ⟨⟨s, false⟩⟩ req ino fh kh events flags reply =
        some ⟨⟨F.poll s req ino fh kh events flags reply, false⟩⟩) ∧
    (∀ req ino fh offset length mode reply,
      FilesystemAdapter.fallocate F ⟨⟨s, false⟩⟩ req ino fh offset length mode
          reply =
        some ⟨⟨F.fallocate s req ino fh offset length mode reply, false⟩⟩) ∧
    (∀ req ino fh offset whence reply,
      FilesystemAdapter.lseek F ⟨⟨s, false⟩⟩ req ino fh offset whence reply =
        some ⟨⟨F.lseek s req ino fh offset whence reply, false⟩⟩) ∧
    (∀ req ino_in fh_in offset_in ino_out fh_out offset_out len flags reply,
      FilesystemAdapter.copy_file_range F ⟨⟨s, false⟩⟩ req ino_in fh_in
          offset_in ino_out fh_out offset_out len flags reply =
        some ⟨⟨F.copy_file_range s req ino_in fh_in offset_in ino_out fh_out
          offset_out len flags reply, false⟩⟩) ∧
    (∀ m : σ → σ, FilesystemAdapter.run ⟨⟨s, true⟩⟩ m = none) ∧
    (∀ req config, FilesystemAdapter.init F ⟨⟨s, true⟩⟩ req config = none) := by
  refine ⟨?_, ?_, ?_, ?_, ?_, ?_, ?_, ?_, ?_, ?_, ?_, ?_, ?_, ?_, ?_, ?_, ?_,
    ?_, ?_, ?_, ?_, ?_, ?_, ?_, ?_, ?_, ?_, ?_, ?_, ?_, ?_, ?_, ?_, ?_, ?_,
    ?_, ?_, ?_, ?_, ?_, ?_, ?_, ?_⟩ <;>
  · intros
    rfl

end Fuser
